import Mathlib

/-!
Verification of the filter-chain compiler and batch execution driver of
audio_preprocessing.py (class AudioPreprocessor).

Modelling notes.
The configuration is a structure mirroring the YAML document the script
loads.  Numeric preprocessing parameters (target level, true peak,
threshold, ratio, attack, release) are interpolated verbatim into the
filter expressions by Python f-strings; we model them as the strings they
format to, since the code never computes with them.  The filesystem and
the external engine are an environment: a predicate saying which paths
exist and an oracle for the outcome of a given engine command.  The
simple model reads that outcome as a Boolean success; the
exception-aware model further distinguishes a non-zero exit, which the
try block catches, from a failure to launch the child process, which is
not a subprocess.SubprocessError and raises out of the call uncaught.
The thread-pool fan-out of process_audio_files is modelled
as a map over the selected files: every task reads only the shared
immutable configuration and writes its own output path, and the claims
under study concern per-file statuses and invocation counts, which are
order-independent.
-/

/-- Mirrors config["output"]. -/
structure OutputConfig where
  format : String
  directory : String
  suffix : String
deriving DecidableEq

/-- Mirrors config["compression"] (the output-compression block). -/
structure CompressionConfig where
  enabled : Bool
  format : String
  codec : String
  bitrate : String
deriving DecidableEq

/-- Mirrors config["preprocessing"]["noise_reduction"]. -/
structure NoiseReductionConfig where
  enabled : Bool
  strength : String
deriving DecidableEq

/-- Mirrors config["preprocessing"]["normalization"]. -/
structure NormalizationConfig where
  enabled : Bool
  target_level : String
  true_peak : String
deriving DecidableEq

/-- Mirrors config["preprocessing"]["compression"] (dynamic range compression). -/
structure DynamicCompressionConfig where
  enabled : Bool
  threshold : String
  ratio : String
  attack : String
  release : String
deriving DecidableEq

/-- Mirrors config["preprocessing"]["eq"]. -/
structure EqConfig where
  enabled : Bool
  preset : String
deriving DecidableEq

/-- Mirrors config["preprocessing"]. -/
structure PreprocessingConfig where
  noise_reduction : NoiseReductionConfig
  normalization : NormalizationConfig
  compression : DynamicCompressionConfig
  eq : EqConfig
deriving DecidableEq

/-- The whole configuration document. -/
structure Config where
  output : OutputConfig
  compression : CompressionConfig
  preprocessing : PreprocessingConfig
deriving DecidableEq

/-- Mirrors strength_map.get(strength, "0.4") in _build_filter_chain:
the dict maps low to 0.2, medium to 0.4, high to 0.6, and any other key
falls back to the default 0.4. -/
def strength_map (s : String) : String :=
  if s = "low" then "0.2"
  else if s = "medium" then "0.4"
  else if s = "high" then "0.6"
  else "0.4"

/-- The noise-reduction stage of _build_filter_chain (lines 198-210). -/
def noise_reduction_filters (p : PreprocessingConfig) : List String :=
  if p.noise_reduction.enabled then
    ["afftdn=nr=" ++ strength_map p.noise_reduction.strength ++ ":nf=-25"]
  else []

/-- The normalization stage of _build_filter_chain (lines 212-218). -/
def normalization_filters (p : PreprocessingConfig) : List String :=
  if p.normalization.enabled then
    ["loudnorm=I=" ++ p.normalization.target_level ++ ":TP=" ++
      p.normalization.true_peak ++ ":LRA=7"]
  else []

/-- The dynamic-range-compression stage of _build_filter_chain (lines 220-228). -/
def dynamic_compression_filters (p : PreprocessingConfig) : List String :=
  if p.compression.enabled then
    ["acompressor=threshold=" ++ p.compression.threshold ++ "dB:ratio=" ++
      p.compression.ratio ++ ":attack=" ++ p.compression.attack ++
      ":release=" ++ p.compression.release]
  else []

/-- The equalization stage of _build_filter_chain (lines 230-247). -/
def eq_filters (p : PreprocessingConfig) : List String :=
  if p.eq.enabled then
    if p.eq.preset = "speech" then
      ["equalizer=f=100:width_type=h:width=200:g=-3",
       "equalizer=f=300:width_type=h:width=200:g=2",
       "equalizer=f=1500:width_type=h:width=1000:g=3",
       "equalizer=f=4000:width_type=h:width=1000:g=1",
       "equalizer=f=8000:width_type=h:width=2000:g=-2"]
    else if p.eq.preset = "music" then
      ["equalizer=f=60:width_type=h:width=100:g=1",
       "equalizer=f=300:width_type=h:width=200:g=0",
       "equalizer=f=1500:width_type=h:width=1000:g=1",
       "equalizer=f=6000:width_type=h:width=2000:g=2"]
    else []
  else []

/-- The filters list built by _build_filter_chain, in the order the code
appends: noise reduction, then normalization, then dynamic range
compression, then equalization. -/
def build_filters (p : PreprocessingConfig) : List String :=
  noise_reduction_filters p ++ normalization_filters p ++
    dynamic_compression_filters p ++ eq_filters p

/-- Mirrors the tail of _build_filter_chain (lines 252-256): join the
collected filters with commas, or return the empty string when none. -/
def build_filter_chain (p : PreprocessingConfig) : String :=
  if build_filters p = [] then "" else String.intercalate "," (build_filters p)

/-- The final path component of a path string, as pathlib Path.name
yields it for the plain paths the driver handles (no trailing
separator). -/
def pathName (p : String) : String :=
  let cs := p.data
  match cs.reverse.findIdx? (fun c => c = '/') with
  | none => p
  | some j => String.mk (cs.drop (cs.length - j))

/-- Mirrors pathlib Path.stem on a file name: name[:i] when i, the index
of the last dot, satisfies 0 < i < len(name) - 1, else the whole name. -/
def fileStem (name : String) : String :=
  let cs := name.data
  match cs.reverse.findIdx? (fun c => c = '.') with
  | none => name
  | some j =>
      let i := cs.length - 1 - j
      if 0 < i ∧ i < cs.length - 1 then String.mk (cs.take i) else name

/-- The output filename for a given container format:
stem + suffix + "." + format (line 129 and line 150). -/
def output_filename_for (cfg : Config) (format : String) (f : String) : String :=
  fileStem (pathName f) ++ cfg.output.suffix ++ "." ++ format

/-- The output path computed at line 129-130, before any compression
adjustment: it always uses the base output format. -/
def base_output_path (cfg : Config) (f : String) : String :=
  cfg.output.directory ++ "/" ++ output_filename_for cfg cfg.output.format f

/-- The output filename after the compression adjustment of lines
143-151: when compression is enabled and its format differs from the
base output format, the filename is recomputed with the compression
format; otherwise the base filename stands. -/
def final_output_filename (cfg : Config) (f : String) : String :=
  if cfg.compression.enabled then
    if cfg.compression.format ≠ cfg.output.format then
      output_filename_for cfg cfg.compression.format f
    else
      output_filename_for cfg cfg.output.format f
  else
    output_filename_for cfg cfg.output.format f

/-- The output path the engine invocation actually targets. -/
def final_output_path (cfg : Config) (f : String) : String :=
  cfg.output.directory ++ "/" ++ final_output_filename cfg f

/-- The encoding options of lines 153-164: codec and bitrate when
compression is enabled; explicit 16-bit PCM when compression is disabled
and the base format is wav; nothing otherwise. -/
def encoding_options (cfg : Config) : List String :=
  if cfg.compression.enabled then
    ["-c:a", cfg.compression.codec, "-b:a", cfg.compression.bitrate]
  else if cfg.output.format = "wav" then
    ["-c:a", "pcm_s16le"]
  else []

/-- The filter arguments of lines 170-171: present exactly when the
compiled chain is non-empty (Python truthiness of the string). -/
def filter_args (cfg : Config) : List String :=
  if build_filter_chain cfg.preprocessing = "" then []
  else ["-filter_complex", build_filter_chain cfg.preprocessing]

/-- The complete FFmpeg command assembled at lines 166-177. -/
def build_cmd (cfg : Config) (f : String) : List String :=
  ["ffmpeg", "-i", f] ++ filter_args cfg ++ encoding_options cfg ++
    ["-y", final_output_path cfg f]

/-- The environment a run observes: which paths already exist on disk,
and whether a given engine command exits with status zero. -/
structure Env where
  existsFile : String → Bool
  engineOk : List String → Bool

/-- Terminal state of one per-file task. -/
inductive ProcStatus where
  | skipped : String → ProcStatus
  | succeeded : String → ProcStatus
  | failed : String → ProcStatus
deriving DecidableEq

/-- The Python return value of _process_single_file: the output path on
skip or success, None on failure (the except branch at lines 190-192). -/
def returnValue : ProcStatus → Option String
  | ProcStatus.skipped p => some p
  | ProcStatus.succeeded p => some p
  | ProcStatus.failed _ => none

/-- Mirrors _process_single_file: the skip check at line 135 tests the
path computed at lines 129-130 (base output format), and only afterwards
(lines 143-151) is the path adjusted for compression.  The second
component records the engine invocations this call issues.  The engine
outcome is collapsed to a Boolean here: this simple model serves only
properties of skipping and of whether an invocation is issued, on which
the failure mode has no bearing; process_single_file_exc below keeps
the distinction between a caught non-zero exit and an uncaught launch
failure. -/
def process_single_file (cfg : Config) (env : Env) (f : String) :
    ProcStatus × List (List String) :=
  if env.existsFile (base_output_path cfg f) then
    (ProcStatus.skipped (base_output_path cfg f), [])
  else
    let cmd := build_cmd cfg f
    if env.engineOk cmd then (ProcStatus.succeeded (final_output_path cfg f), [cmd])
    else (ProcStatus.failed f, [cmd])

/-- The extension list of line 98. -/
def audio_extensions : List String :=
  [".wav", ".mp3", ".m4a", ".aac", ".ogg", ".flac"]

/-- A directory entry matches the glob pattern star-ext exactly when ext
is a suffix of its name (case-sensitive, as pathlib glob is on the
listed lowercase extensions). -/
def matchesExt (name ext : String) : Bool :=
  ext.data.isSuffixOf name.data

/-- The file selection of lines 98-102: for each extension in order, the
immediate entries whose name matches the glob pattern for it. -/
def select_audio_files (entries : List String) : List String :=
  (audio_extensions.map (fun ext => entries.filter (fun n => matchesExt n ext))).flatten

/-- The directory branch of process_audio_files (lines 96-119): select
the audio files and run every one as its own task, collecting each
outcome; an empty selection yields no tasks and no error. -/
def process_audio_files (cfg : Config) (env : Env) (entries : List String) :
    List (ProcStatus × List (List String)) :=
  (select_audio_files entries).map (process_single_file cfg env)

/-- All engine invocations a batch run issues. -/
def batch_invocations (results : List (ProcStatus × List (List String))) :
    List (List String) :=
  (results.map Prod.snd).flatten

/-- The output format the specification (section 4.2 step 1) prescribes
for the computed output path: the compression target format when
compression is enabled and differs from the base format, else the base
format. -/
def spec_output_format (cfg : Config) : String :=
  if cfg.compression.enabled = true ∧ cfg.compression.format ≠ cfg.output.format
  then cfg.compression.format
  else cfg.output.format

/-- The default configuration the script ships (load_config fallback and
generate_config_file). -/
def defaultConfig : Config :=
  { output := { format := "wav", directory := "processed_audio", suffix := "_processed" }
    compression := { enabled := true, format := "m4a", codec := "aac", bitrate := "128k" }
    preprocessing :=
      { noise_reduction := { enabled := true, strength := "medium" }
        normalization := { enabled := true, target_level := "-16", true_peak := "-1.5" }
        compression := { enabled := false, threshold := "-20", ratio := "4",
                         attack := "5", release := "50" }
        eq := { enabled := false, preset := "speech" } } }

/-- Preprocessing block with every stage disabled. -/
def pAllOff : PreprocessingConfig :=
  { noise_reduction := { enabled := false, strength := "medium" }
    normalization := { enabled := false, target_level := "-16", true_peak := "-1.5" }
    compression := { enabled := false, threshold := "-20", ratio := "4",
                     attack := "5", release := "50" }
    eq := { enabled := false, preset := "speech" } }

/-- Preprocessing block with only noise reduction enabled. -/
def pNoiseOnly : PreprocessingConfig :=
  { pAllOff with noise_reduction := { enabled := true, strength := "medium" } }

/-- Preprocessing block with only equalization enabled, speech preset. -/
def pEqSpeech : PreprocessingConfig :=
  { pAllOff with eq := { enabled := true, preset := "speech" } }

/-- The default configuration with every preprocessing stage disabled. -/
def allOffConfig : Config :=
  { output := defaultConfig.output
    compression := defaultConfig.compression
    preprocessing := pAllOff }

/-- Environment of a fresh first run: nothing exists yet and every engine
invocation succeeds. -/
def envFirstRun : Env :=
  { existsFile := fun _ => false
    engineOk := fun _ => true }

/-- Environment observed by a second run of the default configuration on
a directory holding clip.wav: the first run wrote exactly
processed_audio/clip_processed.m4a, and the engine still succeeds. -/
def envSecondRun : Env :=
  { existsFile := fun p => p == "processed_audio/clip_processed.m4a"
    engineOk := fun _ => true }

/-- Outcome of one attempt to run the external engine.  A zero exit is
success.  A non-zero exit surfaces as subprocess.CalledProcessError, a
subclass of subprocess.SubprocessError, which the handler at line 190
catches.  A failure to launch the child process surfaces as
FileNotFoundError or OSError, which is not a SubprocessError and is
therefore not caught at line 190. -/
inductive EngineOutcome where
  | success : EngineOutcome
  | nonZeroExit : EngineOutcome
  | launchFailure : EngineOutcome
deriving DecidableEq

/-- Environment distinguishing the three engine outcomes. -/
structure EnvExc where
  existsFile : String → Bool
  engineRun : List String → EngineOutcome

/-- How a Python call ends for its caller: return a value, or raise an
exception that propagates out of the callee. -/
inductive PyResult where
  | returns : Option String → PyResult
  | raises : PyResult
deriving DecidableEq

/-- Observable effect of one _process_single_file call in the
exception-aware model: how the call ends for its caller, the engine
invocations it issued, and the error message line 191 logs (which
references the offending file; the exception text appended there is
environment noise and is not modelled), if any. -/
structure ProcExcResult where
  result : PyResult
  invocations : List (List String)
  errorLog : Option String
deriving DecidableEq

/-- Exception-aware model of _process_single_file.  The try block at
lines 180-192 catches only subprocess.SubprocessError: a non-zero exit
is caught, logged with the offending file (line 191) and turned into a
None return, while a failure to launch the child process raises out of
the call uncaught, with no line-191 log. -/
def process_single_file_exc (cfg : Config) (env : EnvExc) (f : String) :
    ProcExcResult :=
  if env.existsFile (base_output_path cfg f) then
    { result := PyResult.returns (some (base_output_path cfg f))
      invocations := []
      errorLog := none }
  else
    let cmd := build_cmd cfg f
    match env.engineRun cmd with
    | EngineOutcome.success =>
        { result := PyResult.returns (some (final_output_path cfg f))
          invocations := [cmd]
          errorLog := none }
    | EngineOutcome.nonZeroExit =>
        { result := PyResult.returns none
          invocations := [cmd]
          errorLog := some ("Error processing " ++ f) }
    | EngineOutcome.launchFailure =>
        { result := PyResult.raises
          invocations := [cmd]
          errorLog := none }

/-- Exception-aware model of the directory branch of
process_audio_files: one task per selected file.  The loop at lines
115-119 consumes each future.result() inside a try block whose handler
catches every Exception and logs it (without naming the input file), so
a task that raised is recorded there and the remaining futures are
still consumed: the batch call itself never propagates an exception,
which the totality of this function models. -/
def process_audio_files_exc (cfg : Config) (env : EnvExc)
    (entries : List String) : List ProcExcResult :=
  (select_audio_files entries).map (process_single_file_exc cfg env)

/-- Environment in which every engine launch fails, as when the engine
binary disappears after the startup dependency check. -/
def envLaunchFail : EnvExc :=
  { existsFile := fun _ => false
    engineRun := fun _ => EngineOutcome.launchFailure }

/-- Environment for a three-file batch in which only the invocation for
bad.flac fails, with a non-zero exit: nothing exists yet, and the
engine exits non-zero exactly on commands that mention bad.flac. -/
def envExcOneBad : EnvExc :=
  { existsFile := fun _ => false
    engineRun := fun cmd =>
      if cmd.contains "bad.flac" then EngineOutcome.nonZeroExit
      else EngineOutcome.success }

theorem intercalate_singleton (x : String) : String.intercalate "," [x] = x := by
  simp [String.intercalate]
  rfl

/-- Claim C3: for every input file the produced output filename is
stem + suffix + "." + outputFormat, where outputFormat is the
compression target format when compression is enabled and differs from
the base output format, else the base output format; with stem clip,
suffix _processed, base format wav and compression to m4a the filename
is clip_processed.m4a. -/
theorem output_filename_matches_spec (cfg : Config) (f : String) :
    final_output_filename cfg f =
      fileStem (pathName f) ++ cfg.output.suffix ++ "." ++ spec_output_format cfg ∧
    final_output_path cfg f =
      cfg.output.directory ++ "/" ++
        (fileStem (pathName f) ++ cfg.output.suffix ++ "." ++ spec_output_format cfg) ∧
    final_output_filename defaultConfig "clip.wav" = "clip_processed.m4a" := by
  have h1 : final_output_filename cfg f =
      fileStem (pathName f) ++ cfg.output.suffix ++ "." ++ spec_output_format cfg := by
    rw [final_output_filename, spec_output_format, output_filename_for, output_filename_for]
    by_cases hc : cfg.compression.enabled = true <;>
      by_cases hf : cfg.compression.format = cfg.output.format <;>
        simp [hc, hf]
  refine ⟨h1, ?_, by decide⟩
  rw [final_output_path, h1]

/-- Claim C5: the compiled filter expression lists the enabled stage
expressions comma-separated in the fixed order noise reduction, then
normalization, then dynamic-range compression, then equalization; with
exactly one stage enabled the output is that stage expression alone,
with no separator added around it. -/
theorem filter_chain_fixed_order (p : PreprocessingConfig) :
    build_filter_chain p =
      String.intercalate "," (noise_reduction_filters p ++ normalization_filters p ++
        dynamic_compression_filters p ++ eq_filters p) ∧
    (p.noise_reduction.enabled = true → p.normalization.enabled = false →
      p.compression.enabled = false → p.eq.enabled = false →
      build_filter_chain p =
        "afftdn=nr=" ++ strength_map p.noise_reduction.strength ++ ":nf=-25") ∧
    (p.noise_reduction.enabled = false → p.normalization.enabled = true →
      p.compression.enabled = false → p.eq.enabled = false →
      build_filter_chain p =
        "loudnorm=I=" ++ p.normalization.target_level ++ ":TP=" ++
          p.normalization.true_peak ++ ":LRA=7") ∧
    (p.noise_reduction.enabled = false → p.normalization.enabled = false →
      p.compression.enabled = true → p.eq.enabled = false →
      build_filter_chain p =
        "acompressor=threshold=" ++ p.compression.threshold ++ "dB:ratio=" ++
          p.compression.ratio ++ ":attack=" ++ p.compression.attack ++
          ":release=" ++ p.compression.release) ∧
    (p.noise_reduction.enabled = false → p.normalization.enabled = false →
      p.compression.enabled = false → p.eq.enabled = true →
      build_filter_chain p = String.intercalate "," (eq_filters p)) := by
  refine ⟨?_, ?_, ?_, ?_, ?_⟩
  · show build_filter_chain p = String.intercalate "," (build_filters p)
    rw [build_filter_chain]
    split
    · rename_i h
      rw [h]
      rfl
    · rfl
  · intro h1 h2 h3 h4
    simp [build_filter_chain, build_filters, noise_reduction_filters,
      normalization_filters, dynamic_compression_filters, eq_filters,
      h1, h2, h3, h4, intercalate_singleton]
  · intro h1 h2 h3 h4
    simp [build_filter_chain, build_filters, noise_reduction_filters,
      normalization_filters, dynamic_compression_filters, eq_filters,
      h1, h2, h3, h4, intercalate_singleton]
  · intro h1 h2 h3 h4
    simp [build_filter_chain, build_filters, noise_reduction_filters,
      normalization_filters, dynamic_compression_filters, eq_filters,
      h1, h2, h3, h4, intercalate_singleton]
  · intro h1 h2 h3 h4
    have hb : build_filters p = eq_filters p := by
      simp [build_filters, noise_reduction_filters, normalization_filters,
        dynamic_compression_filters, h1, h2, h3]
    rw [build_filter_chain, hb]
    split
    · rename_i h
      rw [h]
      rfl
    · rfl

/-- Witness for claim C5: with only noise reduction enabled the chain is
the single noise-reduction expression. -/
theorem filter_chain_fixed_order_witness :
    build_filter_chain pNoiseOnly =
      "afftdn=nr=" ++ strength_map pNoiseOnly.noise_reduction.strength ++ ":nf=-25" :=
  (filter_chain_fixed_order pNoiseOnly).2.1 rfl rfl rfl rfl

/-- The preprocessing block with the noise-reduction strength replaced. -/
def with_strength (p : PreprocessingConfig) (s : String) : PreprocessingConfig :=
  { p with noise_reduction := { p.noise_reduction with strength := s } }

/-- Claim C7: the noise-reduction strength mapping is total: low maps to
0.2, medium to 0.4, high to 0.6, any other value defaults to 0.4, so an
unknown strength compiles to exactly the chain of medium; the emitted
stage uses the mapped factor with the fixed noise floor of -25 dB, and
no strength value fails. -/
theorem noise_strength_mapping_total (p : PreprocessingConfig) (s : String)
    (h : p.noise_reduction.enabled = true) :
    strength_map "low" = "0.2" ∧ strength_map "medium" = "0.4" ∧
    strength_map "high" = "0.6" ∧
    (s ≠ "low" → s ≠ "medium" → s ≠ "high" → strength_map s = "0.4") ∧
    build_filter_chain (with_strength p "unknown") =
      build_filter_chain (with_strength p "medium") ∧
    noise_reduction_filters p =
      ["afftdn=nr=" ++ strength_map p.noise_reduction.strength ++ ":nf=-25"] := by
  refine ⟨rfl, rfl, rfl, ?_, ?_, ?_⟩
  · intro hl hm hh
    simp [strength_map, hl, hm, hh]
  · simp [build_filter_chain, build_filters, noise_reduction_filters,
      normalization_filters, dynamic_compression_filters, eq_filters,
      with_strength, strength_map, h]
  · simp [noise_reduction_filters, h]

/-- Witness for claim C7: an unknown strength yields the same chain as
medium on a concrete configuration. -/
theorem noise_strength_mapping_total_witness :
    build_filter_chain (with_strength pNoiseOnly "unknown") =
      build_filter_chain (with_strength pNoiseOnly "medium") :=
  (noise_strength_mapping_total pNoiseOnly "zzz" rfl).2.2.2.2.1

/-- Claim C8: the assembled invocation carries exactly the configured
codec and bitrate when compression is enabled; explicit 16-bit linear
PCM when compression is disabled and the base format is wav; and no
encoding options when compression is disabled and the base format is
anything else. -/
theorem encoding_option_selection (cfg : Config) (f : String) :
    build_cmd cfg f = ["ffmpeg", "-i", f] ++ filter_args cfg ++
      encoding_options cfg ++ ["-y", final_output_path cfg f] ∧
    (cfg.compression.enabled = true →
      encoding_options cfg =
        ["-c:a", cfg.compression.codec, "-b:a", cfg.compression.bitrate]) ∧
    (cfg.compression.enabled = false → cfg.output.format = "wav" →
      encoding_options cfg = ["-c:a", "pcm_s16le"]) ∧
    (cfg.compression.enabled = false → cfg.output.format ≠ "wav" →
      encoding_options cfg = []) := by
  refine ⟨rfl, ?_, ?_, ?_⟩
  · intro h
    simp [encoding_options, h]
  · intro h hw
    simp [encoding_options, h, hw]
  · intro h hw
    simp [encoding_options, h, hw]

/-- Witness for claim C8: the default configuration has compression
enabled, so the options are its codec and bitrate. -/
theorem encoding_option_selection_witness :
    encoding_options defaultConfig =
      ["-c:a", defaultConfig.compression.codec, "-b:a",
        defaultConfig.compression.bitrate] :=
  (encoding_option_selection defaultConfig "clip.wav").2.1 rfl

/-- Claim C9: with equalization enabled, the speech preset emits exactly
the five listed parametric bands, the music preset exactly the four
listed bands (including the zero-gain 300 Hz band), and any other
preset emits no bands at all. -/
theorem eq_preset_bands (p : PreprocessingConfig) (h : p.eq.enabled = true) :
    (p.eq.preset = "speech" → eq_filters p =
      ["equalizer=f=100:width_type=h:width=200:g=-3",
       "equalizer=f=300:width_type=h:width=200:g=2",
       "equalizer=f=1500:width_type=h:width=1000:g=3",
       "equalizer=f=4000:width_type=h:width=1000:g=1",
       "equalizer=f=8000:width_type=h:width=2000:g=-2"]) ∧
    (p.eq.preset = "music" → eq_filters p =
      ["equalizer=f=60:width_type=h:width=100:g=1",
       "equalizer=f=300:width_type=h:width=200:g=0",
       "equalizer=f=1500:width_type=h:width=1000:g=1",
       "equalizer=f=6000:width_type=h:width=2000:g=2"]) ∧
    (p.eq.preset ≠ "speech" → p.eq.preset ≠ "music" → eq_filters p = []) := by
  refine ⟨?_, ?_, ?_⟩
  · intro hp
    simp [eq_filters, h, hp]
  · intro hp
    simp [eq_filters, h, hp]
  · intro hs hm
    simp [eq_filters, h, hs, hm]

/-- Witness for claim C9: the speech preset on a concrete configuration. -/
theorem eq_preset_bands_witness :
    eq_filters pEqSpeech =
      ["equalizer=f=100:width_type=h:width=200:g=-3",
       "equalizer=f=300:width_type=h:width=200:g=2",
       "equalizer=f=1500:width_type=h:width=1000:g=3",
       "equalizer=f=4000:width_type=h:width=1000:g=1",
       "equalizer=f=8000:width_type=h:width=2000:g=-2"] :=
  (eq_preset_bands pEqSpeech rfl).1 rfl

/-- Claim C10: with all four preprocessing stages disabled the compiled
chain is the empty string, and the assembled command carries no filter
argument at all. -/
theorem empty_chain_all_disabled (cfg : Config) (f : String)
    (h1 : cfg.preprocessing.noise_reduction.enabled = false)
    (h2 : cfg.preprocessing.normalization.enabled = false)
    (h3 : cfg.preprocessing.compression.enabled = false)
    (h4 : cfg.preprocessing.eq.enabled = false) :
    build_filter_chain cfg.preprocessing = "" ∧
    filter_args cfg = [] ∧
    build_cmd cfg f = ["ffmpeg", "-i", f] ++ encoding_options cfg ++
      ["-y", final_output_path cfg f] := by
  have hc : build_filter_chain cfg.preprocessing = "" := by
    simp [build_filter_chain, build_filters, noise_reduction_filters,
      normalization_filters, dynamic_compression_filters, eq_filters,
      h1, h2, h3, h4]
  have hf : filter_args cfg = [] := by
    simp [filter_args, hc]
  refine ⟨hc, hf, ?_⟩
  rw [build_cmd, hf]
  rfl

/-- Witness for claim C10: the all-disabled configuration. -/
theorem empty_chain_all_disabled_witness :
    build_filter_chain allOffConfig.preprocessing = "" ∧
    build_cmd allOffConfig "clip.wav" =
      ["ffmpeg", "-i", "clip.wav"] ++ encoding_options allOffConfig ++
        ["-y", final_output_path allOffConfig "clip.wav"] := by
  have h := empty_chain_all_disabled allOffConfig "clip.wav" rfl rfl rfl rfl
  exact ⟨h.1, h.2.2⟩

/-- Claim C2: the skip decision of _process_single_file is evaluated
against the path built from the base output format, computed before the
compression-format adjustment: a pre-existing file at the base-format
path triggers a skip with no invocation, while when compression is
enabled with a different format, a pre-existing file at the
compression-format path (the path the engine actually writes) does not
prevent the invocation; in general the call issues no invocation
exactly when the base-format path exists. -/
theorem skip_decision_uses_base_format_path (cfg : Config) (env : Env) (f : String)
    (hc : cfg.compression.enabled = true)
    (hne : cfg.compression.format ≠ cfg.output.format) :
    (env.existsFile (base_output_path cfg f) = true →
      process_single_file cfg env f =
        (ProcStatus.skipped (base_output_path cfg f), [])) ∧
    (env.existsFile (base_output_path cfg f) = false →
      env.existsFile (final_output_path cfg f) = true →
      (process_single_file cfg env f).2 = [build_cmd cfg f]) ∧
    ((process_single_file cfg env f).2 = [] ↔
      env.existsFile (base_output_path cfg f) = true) := by
  refine ⟨?_, ?_, ?_⟩
  · intro h
    simp [process_single_file, h]
  · intro h _
    cases hok : env.engineOk (build_cmd cfg f) <;>
      simp [process_single_file, h, hok]
  · cases hb : env.existsFile (base_output_path cfg f) <;>
      cases hok : env.engineOk (build_cmd cfg f) <;>
        simp [process_single_file, hb, hok]

/-- Witness for claim C2: with the default configuration, even though
the compression-format output of the first run exists, the second run
still issues the invocation. -/
theorem skip_decision_uses_base_format_path_witness :
    (process_single_file defaultConfig envSecondRun "clip.wav").2 =
      [build_cmd defaultConfig "clip.wav"] :=
  (skip_decision_uses_base_format_path defaultConfig envSecondRun "clip.wav"
    rfl (by decide)).2.1 (by decide) (by decide)

/-- Claim C1 fails on the code: the skip check runs against the
base-format path, before the compression adjustment, while the engine
writes to the compression-format path.  This theorem evaluates the code
at the failing input: under the shipped default configuration a first
run on clip.wav succeeds and writes processed_audio/clip_processed.m4a;
a second run whose filesystem holds exactly that file sees the path of
section 4.2 step 1 existing, yet still issues one more engine
invocation instead of skipping. -/
theorem second_run_reinvokes_engine :
    envSecondRun.existsFile (final_output_path defaultConfig "clip.wav") = true ∧
    final_output_path defaultConfig "clip.wav" =
      "processed_audio/clip_processed.m4a" ∧
    (process_audio_files defaultConfig envFirstRun ["clip.wav"]).map Prod.fst =
      [ProcStatus.succeeded "processed_audio/clip_processed.m4a"] ∧
    batch_invocations (process_audio_files defaultConfig envSecondRun ["clip.wav"]) =
      [build_cmd defaultConfig "clip.wav"] := by
  refine ⟨by decide, by decide, by decide, by decide⟩

/-- Claim C4 overstates the launch-failure case: the handler at line
190 catches only subprocess.SubprocessError, so a failure to launch the
child process raises out of _process_single_file instead of returning a
null result, and the call logs no error referencing the file.  This
theorem evaluates the code at a concrete input whose launch fails:
clip.wav under the default configuration, with no output present. -/
theorem launch_failure_raises :
    (process_single_file_exc defaultConfig envLaunchFail "clip.wav").result =
      PyResult.raises ∧
    (process_single_file_exc defaultConfig envLaunchFail "clip.wav").result ≠
      PyResult.returns none ∧
    (process_single_file_exc defaultConfig envLaunchFail "clip.wav").errorLog =
      none := by
  refine ⟨by decide, by decide, by decide⟩

/-- Claim C4 as amended: for every file whose engine invocation exits
with non-zero status, ProcessOne logs an error referencing that file
and returns a null result rather than raising; a failure to launch the
child process instead raises out of ProcessOne, and the exception is
caught by the per-future handler of the batch driver; in a directory
batch where exactly one file fails, in either mode, every other
selected file still reaches a terminal success or skip state, with one
recorded outcome per selected file, and no exception escapes the batch
call (the batch model is a total function because the per-future
handler catches every Exception). -/
theorem fault_isolation_amended (cfg : Config) (env : EnvExc)
    (entries : List String) (f : String)
    (hmem : f ∈ select_audio_files entries)
    (hnoskip : env.existsFile (base_output_path cfg f) = false)
    (hfail : env.engineRun (build_cmd cfg f) ≠ EngineOutcome.success) :
    (∀ g, g ∈ select_audio_files entries → g ≠ f →
      env.existsFile (base_output_path cfg g) = true ∨
        env.engineRun (build_cmd cfg g) = EngineOutcome.success) →
    ((env.engineRun (build_cmd cfg f) = EngineOutcome.nonZeroExit →
      (process_single_file_exc cfg env f).result = PyResult.returns none ∧
      (process_single_file_exc cfg env f).errorLog =
        some ("Error processing " ++ f)) ∧
    (env.engineRun (build_cmd cfg f) = EngineOutcome.launchFailure →
      (process_single_file_exc cfg env f).result = PyResult.raises) ∧
    (∀ g, g ∈ select_audio_files entries → g ≠ f →
      (process_single_file_exc cfg env g).result =
        PyResult.returns (some (base_output_path cfg g)) ∨
      (process_single_file_exc cfg env g).result =
        PyResult.returns (some (final_output_path cfg g))) ∧
    (process_audio_files_exc cfg env entries).length =
      (select_audio_files entries).length) := by
  intro hothers
  refine ⟨?_, ?_, ?_, ?_⟩
  · intro h
    constructor <;> simp [process_single_file_exc, hnoskip, h]
  · intro h
    simp [process_single_file_exc, hnoskip, h]
  · intro g hg hne
    rcases hothers g hg hne with h | h
    · left
      simp [process_single_file_exc, h]
    · cases hex : env.existsFile (base_output_path cfg g)
      · right
        simp [process_single_file_exc, hex, h]
      · left
        simp [process_single_file_exc, hex]
  · simp [process_audio_files_exc]

/-- Witness for the amended claim C4: in the batch a.wav, b.mp3,
bad.flac with only the bad.flac invocation exiting non-zero, bad.flac
returns None with an error naming it, and a.wav still ends in a
terminal skip or success state. -/
theorem fault_isolation_amended_witness :
    (process_single_file_exc defaultConfig envExcOneBad "bad.flac").result =
      PyResult.returns none ∧
    (process_single_file_exc defaultConfig envExcOneBad "bad.flac").errorLog =
      some ("Error processing " ++ "bad.flac") ∧
    ((process_single_file_exc defaultConfig envExcOneBad "a.wav").result =
        PyResult.returns (some (base_output_path defaultConfig "a.wav")) ∨
      (process_single_file_exc defaultConfig envExcOneBad "a.wav").result =
        PyResult.returns (some (final_output_path defaultConfig "a.wav"))) := by
  have h := fault_isolation_amended defaultConfig envExcOneBad
    ["a.wav", "b.mp3", "bad.flac"] "bad.flac" (by decide) (by decide) (by decide)
    (by
      intro g hg hne
      have hsel : select_audio_files ["a.wav", "b.mp3", "bad.flac"] =
          ["a.wav", "b.mp3", "bad.flac"] := by decide
      rw [hsel] at hg
      simp only [List.mem_cons, List.not_mem_nil, or_false] at hg
      rcases hg with rfl | rfl | rfl
      · right
        decide
      · right
        decide
      · exact absurd rfl hne)
  exact ⟨(h.1 (by decide)).1, (h.1 (by decide)).2,
    h.2.2.1 "a.wav" (by decide) (by decide)⟩

/-- On environments without launch failures the simple Boolean model,
used for the claims about skipping and invocation issuance, agrees with
the exception-aware model: the call returns what the simple status
denotes and issues the same invocations. -/
theorem models_agree (cfg : Config) (env : EnvExc) (f : String)
    (h : env.engineRun (build_cmd cfg f) ≠ EngineOutcome.launchFailure) :
    (process_single_file_exc cfg env f).result =
      PyResult.returns (returnValue (process_single_file cfg
        { existsFile := env.existsFile
          engineOk := fun c => env.engineRun c == EngineOutcome.success } f).1) ∧
    (process_single_file_exc cfg env f).invocations =
      (process_single_file cfg
        { existsFile := env.existsFile
          engineOk := fun c => env.engineRun c == EngineOutcome.success } f).2 := by
  cases hex : env.existsFile (base_output_path cfg f)
  · cases hrun : env.engineRun (build_cmd cfg f)
    · constructor <;>
        simp [process_single_file_exc, process_single_file, hex, hrun, returnValue]
    · constructor <;>
        simp [process_single_file_exc, process_single_file, hex, hrun, returnValue]
    · exact absurd hrun h
  · constructor <;>
      simp [process_single_file_exc, process_single_file, hex, returnValue]

/-- Claim C6: when the input path is a directory, exactly the immediate
entries carrying one of the six audio extensions (case-sensitive) are
selected as tasks; the directory a.wav, b.mp3, readme.txt yields
exactly the two audio files, upper-case variants are never selected,
and an empty selection produces no tasks and no error. -/
theorem directory_enumeration (cfg : Config) (env : Env)
    (entries : List String) (e : String) :
    (e ∈ select_audio_files entries ↔
      e ∈ entries ∧ ∃ ext, ext ∈ audio_extensions ∧ matchesExt e ext = true) ∧
    select_audio_files ["a.wav", "b.mp3", "readme.txt"] = ["a.wav", "b.mp3"] ∧
    select_audio_files ["A.WAV", "notes", "song.Mp3"] = [] ∧
    (select_audio_files entries = [] → process_audio_files cfg env entries = []) := by
  refine ⟨?_, by decide, by decide, ?_⟩
  · simp only [select_audio_files, List.mem_flatten, List.mem_map]
    constructor
    · rintro ⟨l, ⟨ext, hext, rfl⟩, hel⟩
      rw [List.mem_filter] at hel
      exact ⟨hel.1, ext, hext, hel.2⟩
    · rintro ⟨he, ext, hext, hm⟩
      exact ⟨_, ⟨ext, hext, rfl⟩, List.mem_filter.2 ⟨he, hm⟩⟩
  · intro h
    simp [process_audio_files, h]

/-- Witness for claim C6: a directory with no audio files yields an
empty batch without error. -/
theorem directory_enumeration_witness :
    process_audio_files defaultConfig envFirstRun ["readme.txt"] = [] :=
  (directory_enumeration defaultConfig envFirstRun
    ["readme.txt"] "readme.txt").2.2.2 (by decide)
